import Mathlib

/-!
Shallow embedding of the request-lifecycle layer of the MiniMax-MCP-JS server
(`src/mcp-rest-server.ts`, `src/mcp-server.ts`, `src/api/music.ts`,
`src/api/voice-design.ts`), together with theorems settling the specification
claims about retry dispatch, error classification, configuration merging,
credential extraction, and music audio-setting coercion.

Conventions of the embedding:
* A capability adapter (`mediaService.xxx`) is modelled as a function
  `Nat → Except String String` giving the outcome of the adapter call made at
  retry attempt `k` (`.ok r` = resolved value, `.error e` = rejection whose
  `message` is `e`).
* A handler run is summarised by a `Trace`: how many adapter invocations it
  made, the list of `setTimeout` delays it awaited (in order), and its final
  outcome (returned value, returned constructed ToolResult text, or thrown
  error message).
* JavaScript string membership (`String.prototype.includes`) is modelled on
  character lists; template-literal concatenation on `String`.
-/

namespace MiniMaxMCP

/-- `src/mcp-rest-server.ts` line 30: `const MAX_RETRY_ATTEMPTS = 3`. -/
def MAX_RETRY_ATTEMPTS : Nat := 3

/-- `src/mcp-rest-server.ts` line 31: `const RETRY_DELAY = 1000`. -/
def RETRY_DELAY : Nat := 1000

/-- JavaScript `s.includes(pat)`: `pat` occurs contiguously in `s`
(the empty pattern occurs in every string). -/
def jsIncludes (s pat : String) : Bool :=
  decide (pat.toList <:+: s.toList)

/-- `MCPRestServer.wrapError` (lines 829-836): produce
`` `${message}: ${error.message}` `` for an `Error`-valued cause. -/
def wrapError (message error : String) : String :=
  message ++ ": " ++ error

/-- Final outcome of one handler run. -/
inductive Outcome where
  /-- The handler returned the adapter's resolved value unchanged. -/
  | pass (r : String)
  /-- The handler returned a ToolResult it constructed itself (soft payload). -/
  | respond (text : String)
  /-- The handler threw; the argument is the thrown error's message. -/
  | raise (e : String)
deriving DecidableEq, Repr

/-- Observable effects of a handler run: number of adapter invocations,
`setTimeout` delays awaited (in order), and the final outcome. -/
structure Trace where
  invocations : Nat
  delays : List Nat
  outcome : Outcome
deriving DecidableEq, Repr

/-- `MCPRestServer.handleTextToAudio` (lines 489-503): try the adapter; on
failure, if `attempt < MAX_RETRY_ATTEMPTS`, await
`RETRY_DELAY * Math.pow(2, attempt - 1)` and recurse with `attempt + 1`,
otherwise throw the wrapped last error. -/
def handleTextToAudio (adapter : Nat → Except String String) (attempt : Nat) :
    Trace :=
  match adapter attempt with
  | .ok r => ⟨1, [], .pass r⟩
  | .error e =>
    if _h : attempt < MAX_RETRY_ATTEMPTS then
      let rest := handleTextToAudio adapter (attempt + 1)
      ⟨rest.invocations + 1, RETRY_DELAY * 2 ^ (attempt - 1) :: rest.delays,
        rest.outcome⟩
    else
      ⟨1, [], .raise (wrapError "Failed to generate speech" e)⟩
termination_by MAX_RETRY_ATTEMPTS - attempt

/-- C1: with a retryable failure on every attempt, `handleTextToAudio` invokes
the media service exactly 3 times, sleeps exactly twice — 1000 before attempt 2
and 2000 before attempt 3 (the second delay twice the first) — and finally
throws the last error wrapped with the handler's message prefix. -/
theorem handleTextToAudio_retry_bound
    (adapter : Nat → Except String String) (errAt : Nat → String)
    (hfail : ∀ k, adapter k = .error (errAt k)) :
    handleTextToAudio adapter 1 =
      ⟨3, [1000, 2000],
        .raise ("Failed to generate speech: " ++ errAt 3)⟩ := by
  rw [handleTextToAudio, hfail 1]
  rw [handleTextToAudio, hfail 2]
  rw [handleTextToAudio, hfail 3]
  simp [MAX_RETRY_ATTEMPTS, RETRY_DELAY, wrapError]

/-- Witness for C1 at the concrete always-failing adapter
`fun _ => Except.error "network error"`. -/
theorem handleTextToAudio_retry_bound_witness :
    handleTextToAudio (fun _ => Except.error "network error") 1 =
      ⟨3, [1000, 2000],
        .raise ("Failed to generate speech: " ++ "network error")⟩ :=
  handleTextToAudio_retry_bound (fun _ => Except.error "network error")
    (fun _ => "network error") (fun _ => rfl)

/-- `MCPRestServer.handleListVoices` (lines 508-522): same retry pattern with
its own wrap message. -/
def handleListVoices (adapter : Nat → Except String String) (attempt : Nat) :
    Trace :=
  match adapter attempt with
  | .ok r => ⟨1, [], .pass r⟩
  | .error e =>
    if _h : attempt < MAX_RETRY_ATTEMPTS then
      let rest := handleListVoices adapter (attempt + 1)
      ⟨rest.invocations + 1, RETRY_DELAY * 2 ^ (attempt - 1) :: rest.delays,
        rest.outcome⟩
    else
      ⟨1, [], .raise (wrapError "Failed to list voices" e)⟩
termination_by MAX_RETRY_ATTEMPTS - attempt

/-- `MCPRestServer.handlePlayAudio` (lines 527-541): no adapter call at all;
returns a ToolResult echoing the input file path. -/
def handlePlayAudio (inputFilePath : String) : Trace :=
  ⟨0, [], .respond ("Playing audio: " ++ inputFilePath)⟩

/-- `MCPRestServer.handleTextToImage` (lines 546-560). -/
def handleTextToImage (adapter : Nat → Except String String) (attempt : Nat) :
    Trace :=
  match adapter attempt with
  | .ok r => ⟨1, [], .pass r⟩
  | .error e =>
    if _h : attempt < MAX_RETRY_ATTEMPTS then
      let rest := handleTextToImage adapter (attempt + 1)
      ⟨rest.invocations + 1, RETRY_DELAY * 2 ^ (attempt - 1) :: rest.delays,
        rest.outcome⟩
    else
      ⟨1, [], .raise (wrapError "Failed to generate image" e)⟩
termination_by MAX_RETRY_ATTEMPTS - attempt

/-- `MCPRestServer.handleGenerateVideo` (lines 565-579). -/
def handleGenerateVideo (adapter : Nat → Except String String) (attempt : Nat) :
    Trace :=
  match adapter attempt with
  | .ok r => ⟨1, [], .pass r⟩
  | .error e =>
    if _h : attempt < MAX_RETRY_ATTEMPTS then
      let rest := handleGenerateVideo adapter (attempt + 1)
      ⟨rest.invocations + 1, RETRY_DELAY * 2 ^ (attempt - 1) :: rest.delays,
        rest.outcome⟩
    else
      ⟨1, [], .raise (wrapError "Failed to generate video" e)⟩
termination_by MAX_RETRY_ATTEMPTS - attempt

/-- `src/mcp-rest-server.ts` line 596: the domestic-platform real-name
verification URL embedded in the voice-clone remediation message. -/
def verificationUrl : String :=
  "https://platform.minimaxi.com/user-center/basic-information"

/-- The remediation ToolResult text built at lines 598-605. -/
def remediationText : String :=
  "Voice cloning failed: Real-name verification required. To use voice cloning feature, please:\n\n1. Visit MiniMax platform (" ++
    verificationUrl ++
    ")\n2. Complete the real-name verification process\n3. Try again after verification is complete\n\nThis requirement is for security and compliance purposes."

/-- Lines 592-593: the error-message test that identifies a real-name
verification failure. -/
def isVerificationError (e : String) : Bool :=
  jsIncludes e "voice clone user forbidden" ||
    jsIncludes e "should complete real-name verification"

/-- `MCPRestServer.handleVoiceClone` (lines 584-617): on failure, first check
for the real-name-verification condition and return the remediation ToolResult
if it matches; otherwise apply the regular retry mechanism. -/
def handleVoiceClone (adapter : Nat → Except String String) (attempt : Nat) :
    Trace :=
  match adapter attempt with
  | .ok r => ⟨1, [], .pass r⟩
  | .error e =>
    if isVerificationError e then
      ⟨1, [], .respond remediationText⟩
    else if _h : attempt < MAX_RETRY_ATTEMPTS then
      let rest := handleVoiceClone adapter (attempt + 1)
      ⟨rest.invocations + 1, RETRY_DELAY * 2 ^ (attempt - 1) :: rest.delays,
        rest.outcome⟩
    else
      ⟨1, [], .raise (wrapError "Failed to clone voice" e)⟩
termination_by MAX_RETRY_ATTEMPTS - attempt

/-- `MCPRestServer.handleImageToVideo` (lines 622-652): argument
pre-processing, then the same retry pattern (the unused `attempt` bookkeeping
of the source is kept). -/
def handleImageToVideo (adapter : Nat → Except String String) (attempt : Nat) :
    Trace :=
  match adapter attempt with
  | .ok r => ⟨1, [], .pass r⟩
  | .error e =>
    if _h : attempt < MAX_RETRY_ATTEMPTS then
      let rest := handleImageToVideo adapter (attempt + 1)
      ⟨rest.invocations + 1, RETRY_DELAY * 2 ^ (attempt - 1) :: rest.delays,
        rest.outcome⟩
    else
      ⟨1, [], .raise (wrapError "Failed to generate video" e)⟩
termination_by MAX_RETRY_ATTEMPTS - attempt

/-- `MCPRestServer.handleVideoGenerationQuery` (lines 657-665): one adapter
call, no retry; failure is wrapped and thrown. The `attempt` parameter exists
in the source but is never used. -/
def handleVideoGenerationQuery (adapter : Nat → Except String String)
    (_attempt : Nat) : Trace :=
  match adapter 1 with
  | .ok r => ⟨1, [], .pass r⟩
  | .error e => ⟨1, [], .raise (wrapError "Failed to query video generation" e)⟩

/-- `MCPRestServer.handleGenerateMusic` (lines 670-678): one adapter call, no
retry; failure is wrapped and thrown. -/
def handleGenerateMusic (adapter : Nat → Except String String)
    (_attempt : Nat) : Trace :=
  match adapter 1 with
  | .ok r => ⟨1, [], .pass r⟩
  | .error e => ⟨1, [], .raise (wrapError "Failed to generate music" e)⟩

/-- `MCPRestServer.handleVoiceDesign` (lines 683-691): one adapter call, no
retry; failure is wrapped and thrown. -/
def handleVoiceDesign (adapter : Nat → Except String String)
    (_attempt : Nat) : Trace :=
  match adapter 1 with
  | .ok r => ⟨1, [], .pass r⟩
  | .error e => ⟨1, [], .raise (wrapError "Failed to design voice" e)⟩

/-- A string built as `a ++ u ++ b` contains `u` in the sense of
JavaScript `includes`. -/
theorem jsIncludes_middle (a u b : String) : jsIncludes (a ++ u ++ b) u = true := by
  have h : u.toList <:+: (a ++ u ++ b).toList := by
    refine ⟨a.toList, b.toList, ?_⟩
    simp [String.toList, String.data_append]
  simp [jsIncludes, h]

/-- C2: if the first voice-clone attempt fails with a message containing
`voice clone user forbidden` or `should complete real-name verification`, the
handler makes exactly 1 adapter invocation, 0 delays, and returns the
real-name-verification remediation ToolResult, whose text contains the
verification URL — regardless of the remaining retry budget. -/
theorem handleVoiceClone_terminal_short_circuit
    (adapter : Nat → Except String String) (e : String)
    (hfirst : adapter 1 = .error e)
    (hmatch : jsIncludes e "voice clone user forbidden" = true ∨
      jsIncludes e "should complete real-name verification" = true) :
    handleVoiceClone adapter 1 = ⟨1, [], .respond remediationText⟩ ∧
      jsIncludes remediationText verificationUrl = true := by
  constructor
  · rw [handleVoiceClone, hfirst]
    have hv : isVerificationError e = true := by
      rcases hmatch with h | h <;> simp [isVerificationError, h]
    simp [hv]
  · simp only [remediationText]
    exact jsIncludes_middle _ _ _

/-- Witness for C2 at a concrete adapter failing with a forbidden-user error
on attempt 1. -/
theorem handleVoiceClone_terminal_short_circuit_witness :
    handleVoiceClone
        (fun _ => Except.error "api error: voice clone user forbidden") 1 =
      ⟨1, [], .respond remediationText⟩ ∧
      jsIncludes remediationText verificationUrl = true :=
  handleVoiceClone_terminal_short_circuit
    (fun _ => Except.error "api error: voice clone user forbidden")
    "api error: voice clone user forbidden" rfl (Or.inl (by decide))

/-- The media-service methods reached by the call-tool dispatcher, each
modelled by its per-attempt outcome. -/
structure MediaService where
  generateSpeech : Nat → Except String String
  listVoices : Nat → Except String String
  generateImage : Nat → Except String String
  generateVideo : Nat → Except String String
  cloneVoice : Nat → Except String String
  queryVideoGeneration : Nat → Except String String
  generateMusic : Nat → Except String String
  designVoice : Nat → Except String String

/-- A service whose every method rejects every attempt with message `msg`. -/
def failingService (msg : String) : MediaService :=
  ⟨fun _ => .error msg, fun _ => .error msg, fun _ => .error msg,
    fun _ => .error msg, fun _ => .error msg, fun _ => .error msg,
    fun _ => .error msg, fun _ => .error msg⟩

/-- The outer `catch` of the call-tool request handler (lines 480-482): any
error thrown by a handler (or by the unknown-tool `default` branch) is
re-wrapped as `` `Failed to call tool ${toolName}` `` and re-thrown; returned
results pass through unchanged. -/
def outerWrap (toolName : String) (t : Trace) : Trace :=
  match t.outcome with
  | .raise e =>
    ⟨t.invocations, t.delays, .raise (wrapError ("Failed to call tool " ++ toolName) e)⟩
  | _ => t

/-- The ten tool names of the call-tool routing switch (lines 446-476). -/
def knownToolNames : List String :=
  ["text_to_audio", "list_voices", "play_audio", "text_to_image",
    "generate_video", "voice_clone", "image_to_video",
    "query_video_generation", "music_generation", "voice_design"]

/-- The call-tool request handler's routing switch (lines 446-479) under the
outer catch: route `toolName` to its handler starting at attempt 1; an
unrecognized name throws `` `Unknown tool: ${toolName}` `` from the `default`
branch without invoking any adapter. `inputFilePath` stands for
`args.inputFilePath` as used by `handlePlayAudio`. -/
def callTool (toolName : String) (svc : MediaService) (inputFilePath : String) :
    Trace :=
  outerWrap toolName
    (if toolName = "text_to_audio" then handleTextToAudio svc.generateSpeech 1
     else if toolName = "list_voices" then handleListVoices svc.listVoices 1
     else if toolName = "play_audio" then handlePlayAudio inputFilePath
     else if toolName = "text_to_image" then handleTextToImage svc.generateImage 1
     else if toolName = "generate_video" then handleGenerateVideo svc.generateVideo 1
     else if toolName = "voice_clone" then handleVoiceClone svc.cloneVoice 1
     else if toolName = "image_to_video" then handleImageToVideo svc.generateVideo 1
     else if toolName = "query_video_generation" then
       handleVideoGenerationQuery svc.queryVideoGeneration 1
     else if toolName = "music_generation" then handleGenerateMusic svc.generateMusic 1
     else if toolName = "voice_design" then handleVoiceDesign svc.designVoice 1
     else ⟨0, [], .raise ("Unknown tool: " ++ toolName)⟩)

/-- C3 counterexample: `music_generation` is neither of the two tools the claim
allows to skip retry, yet on a persistently failing adapter its handler makes
exactly 1 invocation and no delays — it is not wrapped in the retry policy, so
more than two tools are exempt. -/
theorem retry_exemption_counterexample :
    handleGenerateMusic (fun _ => Except.error "network error") 1 =
      ⟨1, [], .raise "Failed to generate music: network error"⟩ ∧
      ("music_generation" ≠ "query_video_generation" ∧
        "music_generation" ≠ "play_audio") := by
  refine ⟨rfl, by decide, by decide⟩

/-- C3 amended: exactly four tools are exempt from the retry wrapper —
`query_video_generation`, `play_audio`, `music_generation` and `voice_design`
make at most one adapter invocation and no delay even on persistent failure —
while the other six (`text_to_audio`, `list_voices`, `text_to_image`,
`generate_video`, `voice_clone`, `image_to_video`) each make exactly
`MAX_RETRY_ATTEMPTS = 3` invocations with delays `[1000, 2000]` when every
attempt fails with a non-terminal error. -/
theorem retry_exemption_amended
    (adapter : Nat → Except String String) (errAt : Nat → String)
    (hfail : ∀ k, adapter k = .error (errAt k))
    (hnonterm : ∀ k, isVerificationError (errAt k) = false) :
    ((handleTextToAudio adapter 1).invocations = 3 ∧
      (handleTextToAudio adapter 1).delays = [1000, 2000]) ∧
    ((handleListVoices adapter 1).invocations = 3 ∧
      (handleListVoices adapter 1).delays = [1000, 2000]) ∧
    ((handleTextToImage adapter 1).invocations = 3 ∧
      (handleTextToImage adapter 1).delays = [1000, 2000]) ∧
    ((handleGenerateVideo adapter 1).invocations = 3 ∧
      (handleGenerateVideo adapter 1).delays = [1000, 2000]) ∧
    ((handleVoiceClone adapter 1).invocations = 3 ∧
      (handleVoiceClone adapter 1).delays = [1000, 2000]) ∧
    ((handleImageToVideo adapter 1).invocations = 3 ∧
      (handleImageToVideo adapter 1).delays = [1000, 2000]) ∧
    ((handleVideoGenerationQuery adapter 1).invocations = 1 ∧
      (handleVideoGenerationQuery adapter 1).delays = []) ∧
    ((handleGenerateMusic adapter 1).invocations = 1 ∧
      (handleGenerateMusic adapter 1).delays = []) ∧
    ((handleVoiceDesign adapter 1).invocations = 1 ∧
      (handleVoiceDesign adapter 1).delays = []) ∧
    ((handlePlayAudio "file.mp3").invocations = 0 ∧
      (handlePlayAudio "file.mp3").delays = []) := by
  have hTTA : handleTextToAudio adapter 1 =
      ⟨3, [1000, 2000], .raise ("Failed to generate speech: " ++ errAt 3)⟩ := by
    rw [handleTextToAudio, hfail 1]
    rw [handleTextToAudio, hfail 2]
    rw [handleTextToAudio, hfail 3]
    simp [MAX_RETRY_ATTEMPTS, RETRY_DELAY, wrapError]
  have hLV : handleListVoices adapter 1 =
      ⟨3, [1000, 2000], .raise ("Failed to list voices: " ++ errAt 3)⟩ := by
    rw [handleListVoices, hfail 1]
    rw [handleListVoices, hfail 2]
    rw [handleListVoices, hfail 3]
    simp [MAX_RETRY_ATTEMPTS, RETRY_DELAY, wrapError]
  have hTTI : handleTextToImage adapter 1 =
      ⟨3, [1000, 2000], .raise ("Failed to generate image: " ++ errAt 3)⟩ := by
    rw [handleTextToImage, hfail 1]
    rw [handleTextToImage, hfail 2]
    rw [handleTextToImage, hfail 3]
    simp [MAX_RETRY_ATTEMPTS, RETRY_DELAY, wrapError]
  have hGV : handleGenerateVideo adapter 1 =
      ⟨3, [1000, 2000], .raise ("Failed to generate video: " ++ errAt 3)⟩ := by
    rw [handleGenerateVideo, hfail 1]
    rw [handleGenerateVideo, hfail 2]
    rw [handleGenerateVideo, hfail 3]
    simp [MAX_RETRY_ATTEMPTS, RETRY_DELAY, wrapError]
  have hVC : handleVoiceClone adapter 1 =
      ⟨3, [1000, 2000], .raise ("Failed to clone voice: " ++ errAt 3)⟩ := by
    rw [handleVoiceClone, hfail 1]
    rw [handleVoiceClone, hfail 2]
    rw [handleVoiceClone, hfail 3]
    simp [MAX_RETRY_ATTEMPTS, RETRY_DELAY, wrapError,
      hnonterm 1, hnonterm 2, hnonterm 3]
  have hI2V : handleImageToVideo adapter 1 =
      ⟨3, [1000, 2000], .raise ("Failed to generate video: " ++ errAt 3)⟩ := by
    rw [handleImageToVideo, hfail 1]
    rw [handleImageToVideo, hfail 2]
    rw [handleImageToVideo, hfail 3]
    simp [MAX_RETRY_ATTEMPTS, RETRY_DELAY, wrapError]
  refine ⟨⟨?_, ?_⟩, ⟨?_, ?_⟩, ⟨?_, ?_⟩, ⟨?_, ?_⟩, ⟨?_, ?_⟩, ⟨?_, ?_⟩,
    ⟨?_, ?_⟩, ⟨?_, ?_⟩, ⟨?_, ?_⟩, ?_, ?_⟩ <;>
    simp [hTTA, hLV, hTTI, hGV, hVC, hI2V, handleVideoGenerationQuery,
      handleGenerateMusic, handleVoiceDesign, handlePlayAudio, hfail 1]

/-- Witness for the C3 amended theorem at the concrete adapter failing every
attempt with the non-terminal message `"network error"`. -/
theorem retry_exemption_amended_witness :
    ((handleTextToAudio (fun _ => Except.error "network error") 1).invocations = 3 ∧
      (handleTextToAudio (fun _ => Except.error "network error") 1).delays = [1000, 2000]) ∧
    ((handleListVoices (fun _ => Except.error "network error") 1).invocations = 3 ∧
      (handleListVoices (fun _ => Except.error "network error") 1).delays = [1000, 2000]) ∧
    ((handleTextToImage (fun _ => Except.error "network error") 1).invocations = 3 ∧
      (handleTextToImage (fun _ => Except.error "network error") 1).delays = [1000, 2000]) ∧
    ((handleGenerateVideo (fun _ => Except.error "network error") 1).invocations = 3 ∧
      (handleGenerateVideo (fun _ => Except.error "network error") 1).delays = [1000, 2000]) ∧
    ((handleVoiceClone (fun _ => Except.error "network error") 1).invocations = 3 ∧
      (handleVoiceClone (fun _ => Except.error "network error") 1).delays = [1000, 2000]) ∧
    ((handleImageToVideo (fun _ => Except.error "network error") 1).invocations = 3 ∧
      (handleImageToVideo (fun _ => Except.error "network error") 1).delays = [1000, 2000]) ∧
    ((handleVideoGenerationQuery (fun _ => Except.error "network error") 1).invocations = 1 ∧
      (handleVideoGenerationQuery (fun _ => Except.error "network error") 1).delays = []) ∧
    ((handleGenerateMusic (fun _ => Except.error "network error") 1).invocations = 1 ∧
      (handleGenerateMusic (fun _ => Except.error "network error") 1).delays = []) ∧
    ((handleVoiceDesign (fun _ => Except.error "network error") 1).invocations = 1 ∧
      (handleVoiceDesign (fun _ => Except.error "network error") 1).delays = []) ∧
    ((handlePlayAudio "file.mp3").invocations = 0 ∧
      (handlePlayAudio "file.mp3").delays = []) := by
  have hnt : isVerificationError "network error" = false := by decide
  exact retry_exemption_amended (fun _ => Except.error "network error")
    (fun _ => "network error") (fun _ => rfl) (fun _ => hnt)

/-- C4 counterexample: dispatching the unknown tool name `"not_a_tool"` makes
the dispatcher throw the wrapped error
`"Failed to call tool not_a_tool: Unknown tool: not_a_tool"` (outcome
`Outcome.raise`, a propagated exception, not a soft ToolResult), with 0 adapter
invocations and 0 delays. -/
theorem unknown_tool_counterexample :
    callTool "not_a_tool" (failingService "x") "p" =
      ⟨0, [], .raise "Failed to call tool not_a_tool: Unknown tool: not_a_tool"⟩ := by
  decide

/-- C4 amended: for every tool name outside the routing table, the dispatcher
performs no adapter invocation and no delay, and throws (propagates) the
wrapped error `` `Failed to call tool ${toolName}: Unknown tool: ${toolName}` ``
— it does not return a soft ToolResult. -/
theorem unknown_tool_amended (toolName : String) (svc : MediaService)
    (path : String) (h : toolName ∉ knownToolNames) :
    callTool toolName svc path =
      ⟨0, [],
        .raise (wrapError ("Failed to call tool " ++ toolName)
          ("Unknown tool: " ++ toolName))⟩ := by
  simp only [knownToolNames, List.mem_cons, List.not_mem_nil, or_false,
    not_or] at h
  obtain ⟨h1, h2, h3, h4, h5, h6, h7, h8, h9, h10⟩ := h
  simp [callTool, h1, h2, h3, h4, h5, h6, h7, h8, h9, h10, outerWrap]

/-- Witness for the C4 amended theorem at the concrete unknown name
`"not_a_tool"`. -/
theorem unknown_tool_amended_witness :
    callTool "not_a_tool" (failingService "x") "p" =
      ⟨0, [],
        .raise (wrapError ("Failed to call tool " ++ "not_a_tool")
          ("Unknown tool: " ++ "not_a_tool"))⟩ :=
  unknown_tool_amended "not_a_tool" (failingService "x") "p" (by decide)

/-! ### Configuration model (`src/mcp-server.ts`, `MCPServer.updateConfig`)

A JavaScript object's property slot is three-valued: the key can be missing
(`absent`), present with the value `undefined`, or present with a
defined value (`val a`). TypeScript's `Partial<Config>` admits all three.
Object spread `{...old, ...new}` copies every *present* key of `new` —
including keys explicitly set to `undefined` — while absent keys fall back to
`old`. -/

/-- A property slot of a JavaScript object. -/
inductive JSProp (α : Type) where
  | absent : JSProp α
  | undefined : JSProp α
  | val : α → JSProp α
deriving DecidableEq, Repr

/-- Object-spread semantics for one property: a key present on the
higher-priority object (even with value `undefined`) wins; an absent key keeps
the lower-priority slot. -/
def JSProp.spread {α : Type} (old new : JSProp α) : JSProp α :=
  match new with
  | .absent => old
  | x => x

/-- JavaScript truthiness of a property slot holding an object value: objects
are always truthy; a missing or `undefined` slot is falsy. -/
def JSProp.isTruthyObject {α : Type} : JSProp α → Bool
  | .val _ => true
  | _ => false

/-- The nested `server` substructure of `Config`
(`src/types`: `mode`, `port`, `endpoint`). -/
structure ServerConfig where
  mode : JSProp String
  port : JSProp Nat
  endpoint : JSProp String
deriving DecidableEq, Repr

/-- The top-level `Config` object: `apiKey`, `apiHost`, `basePath`,
`resourceMode` and the nested `server` structure. -/
structure Config where
  apiKey : JSProp String
  apiHost : JSProp String
  basePath : JSProp String
  resourceMode : JSProp String
  server : JSProp ServerConfig
deriving DecidableEq, Repr

/-- `{...oldServer, ...newServer}` (line 840-843): key-by-key spread of the
nested server object. -/
def spreadServer (old new : ServerConfig) : ServerConfig :=
  ⟨old.mode.spread new.mode, old.port.spread new.port,
    old.endpoint.spread new.endpoint⟩

/-- `{...this.config, ...newConfig}` (lines 851-854): top-level spread. -/
def spreadConfig (old new : Config) : Config :=
  ⟨old.apiKey.spread new.apiKey, old.apiHost.spread new.apiHost,
    old.basePath.spread new.basePath, old.resourceMode.spread new.resourceMode,
    old.server.spread new.server⟩

/-- `MCPServer.updateConfig` (lines 836-865). First the `server` branch:
if `newConfig.server` and `this.config.server` are both truthy, replace
`this.config.server` by the key-by-key spread and `delete newConfig.server`;
else if `newConfig.server` is truthy, move it over and delete it; otherwise
leave both untouched. Then the top-level spread of the (possibly mutated)
`newConfig` over `this.config`. Returns the pair
(updated `this.config`, `newConfig` as the caller observes it afterwards). -/
def updateConfig (config newConfig : Config) : Config × Config :=
  let step : Config × Config :=
    match newConfig.server, config.server with
    | .val ns, .val cs =>
      ({ config with server := .val (spreadServer cs ns) },
        { newConfig with server := .absent })
    | .val ns, _ =>
      ({ config with server := .val ns },
        { newConfig with server := .absent })
    | _, _ => (config, newConfig)
  (spreadConfig step.1 step.2, step.2)

/-- C5 counterexample: an override whose `apiKey` key is present but explicitly
`undefined` clobbers the existing `apiKey "A"` — the merged result holds
`undefined`, not the existing value, although the claim says an
undefined-valued field never overrides. -/
theorem updateConfig_undef_counterexample :
    (updateConfig
        ⟨.val "A", .val "H", .absent, .val "url", .absent⟩
        ⟨.undefined, .absent, .absent, .absent, .absent⟩).1.apiKey = .undefined ∧
      (JSProp.undefined : JSProp String) ≠ .val "A" := by
  exact ⟨rfl, by decide⟩

/-- C5 amended: in `updateConfig`, each top-level scalar field of the merged
result equals the override's slot whenever the override's key is *present* —
whether its value is defined (including falsy-but-defined values such as the
empty string) or explicitly `undefined` — and equals the existing
configuration's slot exactly when the override's key is absent. -/
theorem updateConfig_top_level_merge (cfg newCfg : Config) :
    ((updateConfig cfg newCfg).1.apiKey =
      if newCfg.apiKey = .absent then cfg.apiKey else newCfg.apiKey) ∧
    ((updateConfig cfg newCfg).1.apiHost =
      if newCfg.apiHost = .absent then cfg.apiHost else newCfg.apiHost) ∧
    ((updateConfig cfg newCfg).1.basePath =
      if newCfg.basePath = .absent then cfg.basePath else newCfg.basePath) ∧
    ((updateConfig cfg newCfg).1.resourceMode =
      if newCfg.resourceMode = .absent then cfg.resourceMode
      else newCfg.resourceMode) := by
  have hfield : ∀ (a b : JSProp String),
      a.spread b = if b = .absent then a else b := by
    intro a b
    cases b <;> simp [JSProp.spread]
  rcases hs : newCfg.server with _ | _ | ns <;>
    rcases hc : cfg.server with _ | _ | cs <;>
      simp [updateConfig, hs, hc, spreadConfig, hfield]

/-- C6: when the existing configuration carries a server object and the
override's server object defines only `mode`, the merged server keeps the
existing `port` and `endpoint` slots and takes the override's `mode`. -/
theorem updateConfig_nested_server_merge (cfg newCfg : Config)
    (cs : ServerConfig) (m : String)
    (hc : cfg.server = .val cs)
    (hn : newCfg.server = .val ⟨.val m, .absent, .absent⟩) :
    (updateConfig cfg newCfg).1.server =
      .val ⟨.val m, cs.port, cs.endpoint⟩ := by
  simp [updateConfig, hc, hn, spreadConfig, spreadServer, JSProp.spread]

/-- Witness for C6 at a concrete configuration
(`server = {mode: "stdio", port: 3000, endpoint: "/rest"}`) and an override
defining only `server.mode = "rest"`. -/
theorem updateConfig_nested_server_merge_witness :
    (updateConfig
        ⟨.val "A", .val "H", .absent, .val "url",
          .val ⟨.val "stdio", .val 3000, .val "/rest"⟩⟩
        ⟨.absent, .absent, .absent, .absent,
          .val ⟨.val "rest", .absent, .absent⟩⟩).1.server =
      .val ⟨.val "rest", .val 3000, .val "/rest"⟩ :=
  updateConfig_nested_server_merge _ _ ⟨.val "stdio", .val 3000, .val "/rest"⟩
    "rest" rfl rfl

/-- C9: `updateConfig` mutates its argument — whenever the caller's
`newConfig` carries a server object, after the call the `server` property has
been deleted from the caller-supplied object (every other property of the
argument is left as it was). -/
theorem updateConfig_mutates_argument (cfg newCfg : Config) (s : ServerConfig)
    (h : newCfg.server = .val s) :
    (updateConfig cfg newCfg).2 = { newCfg with server := .absent } := by
  rcases hc : cfg.server with _ | _ | cs <;> simp [updateConfig, h, hc]

/-- Witness for C9 at a concrete argument carrying a server object. -/
theorem updateConfig_mutates_argument_witness :
    (updateConfig
        ⟨.val "A", .val "H", .absent, .val "url", .absent⟩
        ⟨.val "B", .absent, .absent, .absent,
          .val ⟨.val "rest", .val 8080, .absent⟩⟩).2 =
      ⟨.val "B", .absent, .absent, .absent, .absent⟩ :=
  updateConfig_mutates_argument _ _ ⟨.val "rest", .val 8080, .absent⟩ rfl

/-! ### Credential extraction (`src/mcp-rest-server.ts` lines 141-182)

The request envelope is an untyped JavaScript value. `JSVal` models the
universe the extraction code can meet: `undefined`, `null`, booleans, integer
numbers, strings and string-keyed objects. Every property access in the source
is optional-chained or truthiness-guarded, so access on a non-object yields
`undefined` rather than throwing. -/

/-- An untyped JavaScript value as seen by the extraction code. -/
inductive JSVal where
  | undefined : JSVal
  | null : JSVal
  | bool : Bool → JSVal
  | num : Int → JSVal
  | str : String → JSVal
  | obj : List (String × JSVal) → JSVal

/-- JavaScript truthiness. -/
def JSVal.truthy : JSVal → Bool
  | .undefined => false
  | .null => false
  | .bool b => b
  | .num n => n != 0
  | .str s => s != ""
  | .obj _ => true

/-- `typeof v === 'object'` (true for objects and `null`). -/
def JSVal.typeofObject : JSVal → Bool
  | .null => true
  | .obj _ => true
  | _ => false

/-- Optional-chained property access `v?.key`: `undefined` on anything that is
not an object with the key. -/
def JSVal.get : JSVal → String → JSVal
  | .obj fields, key =>
    match fields.lookup key with
    | some v => v
    | none => .undefined
  | _, _ => .undefined

/-- The value at the primary metadata path `request.params?._meta?.auth`. -/
def primaryAuth (request : JSVal) : JSVal :=
  ((request.get "params").get "_meta").get "auth"

/-- The value at the fallback metadata path `request.params?.meta?.auth`. -/
def fallbackAuth (request : JSVal) : JSVal :=
  ((request.get "params").get "meta").get "auth"

/-- `MCPRestServer.extractApiKeyFromRequest` (lines 141-149):
`const metaAuth = request.params?._meta?.auth || request.params?.meta?.auth;`
then return `metaAuth.api_key` if truthy, else `metaAuth.apiKey` if truthy,
else `undefined`. -/
def extractApiKeyFromRequest (request : JSVal) : JSVal :=
  let metaAuth :=
    if (primaryAuth request).truthy then primaryAuth request
    else fallbackAuth request
  if (metaAuth.get "api_key").truthy then metaAuth.get "api_key"
  else if (metaAuth.get "apiKey").truthy then metaAuth.get "apiKey"
  else .undefined

/-- A `Config` with every slot absent — the `{}` the extractor starts from. -/
def emptyConfig : Config :=
  ⟨.absent, .absent, .absent, .absent, .absent⟩

/-- Read one fragment value as a configuration string slot. -/
def JSVal.asConfigString : JSVal → JSProp String
  | .str s => .val s
  | _ => .absent

/-- Modelled from the spec: `ConfigManager.extractConfigFromMetaAuth` is not
under `src` (only its caller `extractRequestConfig` is). Per spec §4.2 the
recognized keys of the fragment map onto Configuration fields — the API key
under either of two accepted spellings (`api_key` preferred, matching the
sibling `extractApiKeyFromRequest` in `src`), plus API host, base path and
resource mode; unrecognized keys are ignored and contribute nothing. -/
def extractConfigFromMetaAuth (metaAuth : JSVal) : Config :=
  { apiKey :=
      if (metaAuth.get "api_key").truthy then (metaAuth.get "api_key").asConfigString
      else if (metaAuth.get "apiKey").truthy then (metaAuth.get "apiKey").asConfigString
      else .absent
    apiHost :=
      if (metaAuth.get "api_host").truthy then (metaAuth.get "api_host").asConfigString
      else .absent
    basePath :=
      if (metaAuth.get "base_path").truthy then (metaAuth.get "base_path").asConfigString
      else .absent
    resourceMode :=
      if (metaAuth.get "resource_mode").truthy then (metaAuth.get "resource_mode").asConfigString
      else .absent
    server := .absent }

/-- `MCPRestServer.extractRequestConfig` (lines 155-182): start from `{}`;
take `params._meta.auth`, fall back to `params.meta.auth` when the former is
falsy and the latter truthy; if the chosen value is truthy and of object type,
`Object.assign` the fragment extracted by `ConfigManager` onto the empty
config; otherwise return the empty config. -/
def extractRequestConfig (request : JSVal) : Config :=
  let metaAuth0 := primaryAuth request
  let metaAuth :=
    if !metaAuth0.truthy && (fallbackAuth request).truthy then
      fallbackAuth request
    else metaAuth0
  if metaAuth.truthy && metaAuth.typeofObject then
    extractConfigFromMetaAuth metaAuth
  else emptyConfig

/-- The request of the C7 counterexample: the primary path holds the *present*
but falsy value `""`, while the fallback path holds a fragment carrying
`api_key = "K"`. -/
def requestFalsyPrimary : JSVal :=
  .obj [("params", .obj
    [("_meta", .obj [("auth", .str "")]),
     ("meta", .obj [("auth", .obj [("api_key", .str "K")])])])]

/-- C7 counterexample: on `requestFalsyPrimary` the primary path is present
(it holds `""`, not `undefined`), yet both extractors consult the fallback
path and return its key `"K"` — refuting the claim that the fallback is read
only when the primary is absent. -/
theorem extraction_fallback_counterexample :
    primaryAuth requestFalsyPrimary = .str "" ∧
      extractApiKeyFromRequest requestFalsyPrimary = .str "K" ∧
      (extractRequestConfig requestFalsyPrimary).apiKey = .val "K" := by
  exact ⟨rfl, rfl, rfl⟩

/-- The amended extraction rule for the API key, stated denotationally in
terms of the two metadata paths: the primary wins when *truthy* (falling back
on any falsy value, not only on absence); within the chosen fragment `api_key`
wins when truthy, else `apiKey` when truthy, else `undefined`. -/
def specExtractApiKey (primary fallback : JSVal) : JSVal :=
  let m := if primary.truthy then primary else fallback
  if (m.get "api_key").truthy then m.get "api_key"
  else if (m.get "apiKey").truthy then m.get "apiKey"
  else .undefined

/-- The amended extraction rule for the configuration fragment: the chosen
path (primary when truthy, else fallback) contributes its recognized keys when
it is a truthy object; in every other case the extractor returns the empty
configuration. Extraction is a total function: it never throws. -/
def specExtractConfig (primary fallback : JSVal) : Config :=
  let m := if primary.truthy then primary else fallback
  if m.truthy && m.typeofObject then extractConfigFromMetaAuth m
  else emptyConfig

/-- C7 amended: for every request envelope, `extractApiKeyFromRequest` and
`extractRequestConfig` behave exactly as the denotational rules above: the
primary path `params._meta.auth` wins when truthy, the fallback
`params.meta.auth` is used whenever the primary is falsy (absent, undefined,
null, or a falsy value), `api_key` is preferred over `apiKey` by truthiness,
a request holding no truthy object fragment yields the empty configuration,
and both extractors are total (never throw). -/
theorem extraction_amended (request : JSVal) :
    extractApiKeyFromRequest request =
      specExtractApiKey (primaryAuth request) (fallbackAuth request) ∧
    extractRequestConfig request =
      specExtractConfig (primaryAuth request) (fallbackAuth request) := by
  constructor
  · rfl
  · rcases hp : (primaryAuth request).truthy with _ | _ <;>
      rcases hf : (fallbackAuth request).truthy with _ | _ <;>
        simp [extractRequestConfig, specExtractConfig, hp, hf]

/-- The body of the call-tool request handler (lines 428-483) with the
request-scoped service construction made explicit: a `MediaService` is built
from the resolved request configuration (lines 434-436) and the switch is
entered directly — the source performs no validation of `apiKey`/`apiHost`
between configuration resolution and dispatch. -/
def dispatchCallTool (requestConfig : Config)
    (mkService : Config → MediaService) (toolName inputFilePath : String) :
    Trace :=
  callTool toolName (mkService requestConfig) inputFilePath

/-- C8: the REST dispatcher performs no mandatory-field validation before the
retry loop. For any adapter stack that rejects calls made with a
configuration lacking `apiKey`, dispatching `text_to_audio` under such a
configuration invokes the adapter all 3 times with both backoff delays and
ends in a thrown wrapped error — not in a configuration-error ToolResult
returned before any adapter invocation. -/
theorem config_error_is_retried (mkService : Config → MediaService)
    (cfg : Config) (hkey : cfg.apiKey = .absent)
    (hreject : ∀ c : Config, c.apiKey = .absent →
      ∀ k, (mkService c).generateSpeech k = .error "API key is required") :
    dispatchCallTool cfg mkService "text_to_audio" "p" =
      ⟨3, [1000, 2000],
        .raise (wrapError "Failed to call tool text_to_audio"
          (wrapError "Failed to generate speech" "API key is required"))⟩ := by
  have hsvc := hreject cfg hkey
  have h3 : handleTextToAudio (mkService cfg).generateSpeech 1 =
      ⟨3, [1000, 2000],
        .raise (wrapError "Failed to generate speech" "API key is required")⟩ := by
    rw [handleTextToAudio, hsvc 1]
    rw [handleTextToAudio, hsvc 2]
    rw [handleTextToAudio, hsvc 3]
    simp [MAX_RETRY_ATTEMPTS, RETRY_DELAY, wrapError]
  simp [dispatchCallTool, callTool, h3, outerWrap]

/-- Witness for C8 at the concrete service constructor that rejects every call
with the API-key-required message, and a configuration with no `apiKey`. -/
theorem config_error_is_retried_witness :
    dispatchCallTool emptyConfig (fun _ => failingService "API key is required")
        "text_to_audio" "p" =
      ⟨3, [1000, 2000],
        .raise (wrapError "Failed to call tool text_to_audio"
          (wrapError "Failed to generate speech" "API key is required"))⟩ :=
  config_error_is_retried (fun _ => failingService "API key is required")
    emptyConfig rfl (fun _ _ _ => rfl)

/-! ### MusicAPI audio-setting coercion (`src/api/music.ts`) -/

/-- `music.ts` line 1066: valid sample rates. -/
def validSampleRates : List Int := [16000, 24000, 32000, 44100]

/-- `music.ts` line 1090: valid bitrates. -/
def validBitrates : List Int := [32000, 64000, 128000, 256000]

/-- `music.ts` line 1114: valid channel counts. -/
def validChannels : List Int := [1, 2]

/-- `music.ts` line 1138: valid formats. -/
def validFormats : List String := ["mp3", "pcm", "wav"]

/-- The JavaScript seedless `reduce` used to find the closest valid value
(lines 1076-1078): seed with the first element; replace the accumulator only
when the current element is strictly closer to `x`. -/
def jsReduceClosest (x : Int) : List Int → Int
  | [] => 0
  | h :: t =>
    t.foldl (fun prev curr =>
      if (curr - x).natAbs < (prev - x).natAbs then curr else prev) h

/-- `MusicAPI.ensureValidSampleRate` (lines 1064-1085): `undefined` becomes
32000; a value outside the valid list is replaced by the closest valid value;
a valid value passes through. -/
def ensureValidSampleRate : Option Int → Int
  | none => 32000
  | some s =>
    if s ∉ validSampleRates then jsReduceClosest s validSampleRates else s

/-- `MusicAPI.ensureValidBitrate` (lines 1088-1109): default 128000. -/
def ensureValidBitrate : Option Int → Int
  | none => 128000
  | some b =>
    if b ∉ validBitrates then jsReduceClosest b validBitrates else b

/-- `MusicAPI.ensureValidChannel` (lines 1112-1133): default 1. -/
def ensureValidChannel : Option Int → Int
  | none => 1
  | some c =>
    if c ∉ validChannels then jsReduceClosest c validChannels else c

/-- `MusicAPI.ensureValidFormat` (lines 1136-1152): a missing or falsy format
becomes `"mp3"`; a format outside the valid list becomes `"mp3"`; a valid
format passes through. -/
def ensureValidFormat : Option String → String
  | none => "mp3"
  | some f =>
    if f = "" then "mp3"
    else if f ∉ validFormats then "mp3"
    else f

/-- The `audio_setting` object generateMusic sends upstream (lines 1011-1016). -/
structure MusicAudioSetting where
  sample_rate : Int
  bitrate : Int
  format : String
  channel : Int
deriving DecidableEq, Repr

/-- The two request-validation failures of `generateMusic` (lines 993-998). -/
inductive MusicRequestError where
  | promptRequired : MusicRequestError
  | lyricsRequired : MusicRequestError
deriving DecidableEq, Repr

/-- JavaScript `!s || s.trim() === ''`: the string is empty or entirely
whitespace. -/
def jsBlank (s : String) : Bool := s.toList.all Char.isWhitespace

/-- `MusicAPI.generateMusic` up to the point the upstream request body is
fixed (lines 991-1017): reject an empty/blank prompt or lyrics, otherwise
build the `audio_setting` by silently coercing each field. -/
def generateMusicAudioSetting (prompt lyrics : String)
    (sampleRate bitrate channel : Option Int) (format : Option String) :
    Except MusicRequestError MusicAudioSetting :=
  if jsBlank prompt then .error .promptRequired
  else if jsBlank lyrics then .error .lyricsRequired
  else .ok ⟨ensureValidSampleRate sampleRate, ensureValidBitrate bitrate,
    ensureValidFormat format, ensureValidChannel channel⟩

/-- `r` is the element of `l` closest to `x`, with ties resolved to the
element occurring earlier in `l`. -/
def closestTieEarliest (l : List Int) (x r : Int) : Prop :=
  r ∈ l ∧ (∀ v ∈ l, (r - x).natAbs ≤ (v - x).natAbs) ∧
    ∀ v ∈ l, (v - x).natAbs = (r - x).natAbs → l.indexOf r ≤ l.indexOf v

/-- The seedless reduce over the sample-rate list returns the closest valid
sample rate, ties to the earlier list element. -/
theorem jsReduceClosest_sampleRates (s : Int) :
    closestTieEarliest validSampleRates s (jsReduceClosest s validSampleRates) := by
  simp only [jsReduceClosest, validSampleRates, List.foldl]
  split_ifs <;>
    refine ⟨by simp [validSampleRates], ?_, ?_⟩ <;>
      intro v hv <;> simp [validSampleRates] at hv <;>
        rcases hv with rfl | rfl | rfl | rfl <;>
          first
            | omega
            | (intro _; decide)

/-- The seedless reduce over the bitrate list returns the closest valid
bitrate, ties to the earlier list element. -/
theorem jsReduceClosest_bitrates (b : Int) :
    closestTieEarliest validBitrates b (jsReduceClosest b validBitrates) := by
  simp only [jsReduceClosest, validBitrates, List.foldl]
  split_ifs <;>
    refine ⟨by simp [validBitrates], ?_, ?_⟩ <;>
      intro v hv <;> simp [validBitrates] at hv <;>
        rcases hv with rfl | rfl | rfl | rfl <;>
          first
            | omega
            | (intro _; decide)

/-- The seedless reduce over the channel list returns the closest valid
channel, ties to the earlier list element. -/
theorem jsReduceClosest_channels (c : Int) :
    closestTieEarliest validChannels c (jsReduceClosest c validChannels) := by
  simp only [jsReduceClosest, validChannels, List.foldl]
  split_ifs <;>
    refine ⟨by simp [validChannels], ?_, ?_⟩ <;>
      intro v hv <;> simp [validChannels] at hv <;>
        rcases hv with rfl | rfl <;> omega

/-- C10: `MusicAPI.generateMusic` silently coerces the audio settings instead
of rejecting them. An undefined `sampleRate`/`bitrate`/`channel` becomes
32000/128000/1; a defined value inside the valid set passes through unchanged;
a defined value outside the valid set is replaced by the closest valid value
with ties resolved to the earlier list element; a format outside the valid set
becomes `"mp3"`; and with a non-blank prompt and lyrics, `generateMusic`
builds exactly this coerced `audio_setting` (no rejection). -/
theorem generateMusic_coercion :
    (ensureValidSampleRate none = 32000 ∧ ensureValidBitrate none = 128000 ∧
      ensureValidChannel none = 1) ∧
    ((∀ s : Int, s ∈ validSampleRates → ensureValidSampleRate (some s) = s) ∧
      (∀ b : Int, b ∈ validBitrates → ensureValidBitrate (some b) = b) ∧
      (∀ c : Int, c ∈ validChannels → ensureValidChannel (some c) = c) ∧
      (∀ f : String, f ∈ validFormats → ensureValidFormat (some f) = f)) ∧
    ((∀ s : Int, s ∉ validSampleRates →
        closestTieEarliest validSampleRates s (ensureValidSampleRate (some s))) ∧
      (∀ b : Int, b ∉ validBitrates →
        closestTieEarliest validBitrates b (ensureValidBitrate (some b))) ∧
      (∀ c : Int, c ∉ validChannels →
        closestTieEarliest validChannels c (ensureValidChannel (some c)))) ∧
    (∀ f : String, f ∉ validFormats → ensureValidFormat (some f) = "mp3") ∧
    (∀ prompt lyrics : String, ∀ sampleRate bitrate channel : Option Int,
      ∀ format : Option String, jsBlank prompt = false → jsBlank lyrics = false →
      generateMusicAudioSetting prompt lyrics sampleRate bitrate channel format =
        .ok ⟨ensureValidSampleRate sampleRate, ensureValidBitrate bitrate,
          ensureValidFormat format, ensureValidChannel channel⟩) := by
  refine ⟨⟨rfl, rfl, rfl⟩, ⟨?_, ?_, ?_, ?_⟩, ⟨?_, ?_, ?_⟩, ?_, ?_⟩
  · intro s hs; simp [ensureValidSampleRate, hs]
  · intro b hb; simp [ensureValidBitrate, hb]
  · intro c hc; simp [ensureValidChannel, hc]
  · intro f hf
    have hne : f ≠ "" := by
      rintro rfl; simp [validFormats] at hf
    simp [ensureValidFormat, hf, hne]
  · intro s hs; simp only [ensureValidSampleRate, if_pos hs]
    exact jsReduceClosest_sampleRates s
  · intro b hb; simp only [ensureValidBitrate, if_pos hb]
    exact jsReduceClosest_bitrates b
  · intro c hc; simp only [ensureValidChannel, if_pos hc]
    exact jsReduceClosest_channels c
  · intro f hf; simp [ensureValidFormat, hf]
  · intro prompt lyrics sampleRate bitrate channel format hp hl
    simp [generateMusicAudioSetting, hp, hl]

/-- Witness for C10: defaults; the in-set value 44100 passes; 20000 is
replaced by 16000 (equidistant from 16000 and 24000, the earlier element
wins); 100000 is replaced by 128000; format `"ogg"` becomes `"mp3"`; and a
concrete non-blank request builds exactly the coerced setting. -/
theorem generateMusic_coercion_witness :
    (ensureValidSampleRate none = 32000 ∧ ensureValidBitrate none = 128000 ∧
      ensureValidChannel none = 1) ∧
    ensureValidSampleRate (some 44100) = 44100 ∧
    closestTieEarliest validSampleRates 20000 (ensureValidSampleRate (some 20000)) ∧
    closestTieEarliest validBitrates 100000 (ensureValidBitrate (some 100000)) ∧
    ensureValidFormat (some "ogg") = "mp3" ∧
    generateMusicAudioSetting "Pop music, sad" "Line one\nLine two"
        (some 20000) (some 100000) (some 1) (some "ogg") =
      .ok ⟨16000, 128000, "mp3", 1⟩ := by
  have h := generateMusic_coercion
  refine ⟨h.1, h.2.1.1 44100 (by decide), h.2.2.1.1 20000 (by decide),
    h.2.2.1.2.1 100000 (by decide), h.2.2.2.1 "ogg" (by decide), ?_⟩
  have hreq := h.2.2.2.2 "Pop music, sad" "Line one\nLine two"
    (some 20000) (some 100000) (some 1) (some "ogg") (by decide) (by decide)
  rw [hreq]
  rfl

end MiniMaxMCP
